import Mathlib

/-!
Shallow embedding of `rpc/jsonrpc/server/ws_handler.go` (package `server`):
the per-connection websocket JSON-RPC engine of tendermint.  The file embeds

* the JSON-RPC wire data (`RPCRequest`, `RPCResponse`, `RPCError`) and the
  response constructors of `rpc/jsonrpc/types` (that package is not part of
  the sources in scope, so its constructors are modelled from the spec's
  error taxonomy, §4.4);
* one iteration of `wsConnection.readRoutine` (ws_handler.go:296-422) as a
  pure step function from an inbound event to the control-flow branch taken
  (`IterAction`) and its effects (`StepEffects`);
* one iteration of `wsConnection.writeRoutine` (ws_handler.go:425-468);
* the Go `select` semantics of `WriteRPCResponse` / `TryWriteRPCResponse`
  (ws_handler.go:262-283) as sets of possible outcomes — a Go select picks
  uniformly among the *ready* cases, so with several ready cases the result
  is nondeterministic and is modelled as a list of possible results;
* the connection lifecycle (`newWSConnection`, `Start`, `Stop`,
  ws_handler.go:152-251), with `client.RunState` modelled from the spec
  (§4.1) because the `rpc/client` package is not part of the sources in
  scope.
-/

namespace WsHandler

/-- JSON-RPC request identifier (`rpctypes.jsonrpcid`): either an integer id
(`JSONRPCIntID`) or a string id (`JSONRPCStringID`). -/
inductive JSONRPCID
  | intID (n : Int)
  | stringID (s : String)
  deriving DecidableEq, Repr

/-- Structured RPC error (`rpctypes.RPCError`): numeric code, message and
optional data rendered as a string. -/
structure RPCError where
  code : Int
  message : String
  data : String
  deriving DecidableEq, Repr

/-- Wire response (`rpctypes.RPCResponse`): carries an id (absent for parse
errors, where the id is unknown), and either a result payload or an error. -/
structure RPCResponse where
  id : Option JSONRPCID
  result : Option String
  error : Option RPCError
  deriving DecidableEq, Repr

/-- Wire request (`rpctypes.RPCRequest`): optional id (absence marks a
notification), method name, and raw parameter bytes (`json.RawMessage`,
modelled as a string; the code only tests `len(request.Params) > 0`). -/
structure RPCRequest where
  id : Option JSONRPCID
  method : String
  params : String
  deriving DecidableEq, Repr

/-- Modelled from the spec: `rpctypes.NewRPCSuccessResponse(id, result)`
(§4.4 "no error → Success (result payload)"; §3 "success {id, result}"). -/
def newRPCSuccessResponse (id : Option JSONRPCID) (result : String) : RPCResponse :=
  { id := id, result := some result, error := none }

/-- Modelled from the spec: `rpctypes.NewRPCErrorResponse(id, code, message,
data)` (§3 "failure {id, error:{code, message, data?}}"). -/
def newRPCErrorResponse (id : Option JSONRPCID) (code : Int) (message : String)
    (data : String) : RPCResponse :=
  { id := id, result := none, error := some { code := code, message := message, data := data } }

/-- Modelled from the spec: `rpctypes.RPCParseError(err)` — ParseError,
code -32700, id unknown (§4.4, §4.3 step 3 "id unknown/zero"). -/
def rpcParseError (err : String) : RPCResponse :=
  newRPCErrorResponse none (-32700) "Parse error. Invalid JSON" err

/-- Modelled from the spec: `rpctypes.RPCMethodNotFoundError(id)` —
MethodNotFound, code -32601 (§4.4). -/
def rpcMethodNotFoundError (id : Option JSONRPCID) : RPCResponse :=
  newRPCErrorResponse id (-32601) "Method not found" ""

/-- Modelled from the spec: `rpctypes.RPCInvalidParamsError(id, err)` —
InvalidParams, code -32602 (§4.4). -/
def rpcInvalidParamsError (id : Option JSONRPCID) (err : String) : RPCResponse :=
  newRPCErrorResponse id (-32602) "Invalid params" err

/-- Modelled from the spec: `rpctypes.RPCInvalidRequestError(id, err)` —
InvalidRequest, code -32600 (§4.4). -/
def rpcInvalidRequestError (id : Option JSONRPCID) (err : String) : RPCResponse :=
  newRPCErrorResponse id (-32600) "Invalid Request" err

/-- Modelled from the spec: `rpctypes.RPCInternalError(id, err)` —
InternalError, code -32603 (§4.4). -/
def rpcInternalError (id : Option JSONRPCID) (err : String) : RPCResponse :=
  newRPCErrorResponse id (-32603) "Internal error" err

/-- The fixed "bad request" sentinel errors of `coretypes` that the taxonomy
switch of ws_handler.go:406-407 compares `errors.Unwrap(err)` against. -/
inductive BadRequestSentinel
  | errZeroOrNegativeHeight
  | errZeroOrNegativePerPage
  | errPageOutOfRange
  | errInvalidRequest
  deriving DecidableEq, Repr

/-- Outcome of invoking a resolved handler, i.e. of
`rpcFunc.f.Call(args)` followed by `unreflectResult` (ws_handler.go:387,393).
`otherError` carries the error rendered as a string together with what
`errors.Unwrap` yields on it (`some s` exactly when the unwrapped error is
the sentinel `s`; `none` otherwise).  `panics` is an unrecoverable runtime
fault; it carries the recovered value already converted to an error string
as in ws_handler.go:302-305 (the value itself when it is an error, else
`fmt.Errorf("WSJSONRPC: %v", r)`). -/
inductive HandlerOutcome
  | success (result : String)
  | rpcErr (e : RPCError)
  | otherError (msg : String) (unwrapsTo : Option BadRequestSentinel)
  | panics (err : String)
  deriving DecidableEq, Repr

/-- An argument passed to the reflective handler call (ws_handler.go:372-387):
the request-context argument built from the request, or a bound parameter
produced by `jsonParamsToArgs`. -/
inductive HandlerArg
  | ctxArg (req : RPCRequest)
  | boundArg (v : String)
  deriving DecidableEq, Repr

/-- A registered method (`*RPCFunc`): its parameter-binding function
(`jsonParamsToArgs`, external to this file's sources) and its invocation
behaviour (`f.Call` + `unreflectResult`), both supplied as oracles. -/
structure RPCFunc where
  bind : String → Except String (List String)
  call : List HandlerArg → HandlerOutcome

/-- The registry `funcMap map[string]*RPCFunc`. -/
def FuncMap : Type := String → Option RPCFunc

/-- One inbound event seen by an iteration of `readRoutine`
(ws_handler.go:318-421): connection context already done, a socket read
error (`NextReader` failed; the flag tells whether it was a normal close),
or a frame whose JSON decode either failed or yielded a request. -/
inductive InboundMessage
  | ctxDone
  | readError (normalClose : Bool)
  | frame (decoded : Except String RPCRequest)
  deriving Repr

/-- The control-flow branch one `readRoutine` iteration takes, mirroring the
code paths of ws_handler.go:318-421 one constructor per path.  `dispatched`
records the argument list actually passed to the handler and the handler's
outcome (a panic escapes the iteration and is caught by the deferred
recover of ws_handler.go:300-312). -/
inductive IterAction
  | ctxDoneReturn
  | readFailure (normalClose : Bool)
  | parseFailure (e : String)
  | notification (req : RPCRequest)
  | methodNotFound (req : RPCRequest)
  | bindFailure (req : RPCRequest) (e : String)
  | dispatched (req : RPCRequest) (args : List HandlerArg) (outcome : HandlerOutcome)
  deriving DecidableEq, Repr

/-- What happens to the loop after one iteration: continue the `for` loop,
return (context done), stop-and-quit (read error: `wsc.Stop()` is called,
`readRoutineQuit` is closed, the routine returns permanently), or restart —
the deferred recover spawns `go wsc.readRoutine(ctx)`, a fresh task
(ws_handler.go:310). -/
inductive LoopControl
  | cont
  | ret
  | stopQuit
  | restartTask
  deriving DecidableEq, Repr

/-- Observable effects of one `readRoutine` iteration: the responses handed
to the blocking enqueue `wsc.WriteRPCResponse(writeCtx, ·)`, in order, and
what the loop does next. -/
structure StepEffects where
  enqueued : List RPCResponse
  control : LoopControl
  deriving DecidableEq, Repr

/-- Branch selection of one `readRoutine` iteration (ws_handler.go:318-387):
context check, read error, JSON decode, notification check
(`request.ID == nil`), registry lookup (`wsc.funcMap[request.Method]`),
parameter binding only when `len(request.Params) > 0`, then the handler
call with the request-context argument first. -/
def readStep (funcMap : FuncMap) : InboundMessage → IterAction
  | .ctxDone => .ctxDoneReturn
  | .readError normalClose => .readFailure normalClose
  | .frame (.error e) => .parseFailure e
  | .frame (.ok req) =>
    match req.id with
    | none => .notification req
    | some _ =>
      match funcMap req.method with
      | none => .methodNotFound req
      | some rpcFunc =>
        let args := [HandlerArg.ctxArg req]
        if req.params.length > 0 then
          match rpcFunc.bind req.params with
          | .error e => .bindFailure req e
          | .ok fnArgs =>
            let args := args ++ fnArgs.map HandlerArg.boundArg
            .dispatched req args (rpcFunc.call args)
        else
          .dispatched req args (rpcFunc.call args)

/-- Effects of each branch, mirroring ws_handler.go:300-312 (panic recovery:
one `RPCInternalError(JSONRPCIntID(-1), err)` is enqueued and the routine is
restarted as a fresh task), 320-339 (context done / read error), 345-360
(parse error / notification), 365-384 (method not found / bind failure) and
392-418 (the error-taxonomy switch on the handler outcome). -/
def actionEffects : IterAction → StepEffects
  | .ctxDoneReturn => { enqueued := [], control := .ret }
  | .readFailure _ => { enqueued := [], control := .stopQuit }
  | .parseFailure e =>
      { enqueued := [rpcParseError ("error unmarshaling request: " ++ e)], control := .cont }
  | .notification _ => { enqueued := [], control := .cont }
  | .methodNotFound req =>
      { enqueued := [rpcMethodNotFoundError req.id], control := .cont }
  | .bindFailure req e =>
      { enqueued := [rpcInvalidParamsError req.id
          ("error converting json params to arguments: " ++ e)], control := .cont }
  | .dispatched req _ (.success result) =>
      { enqueued := [newRPCSuccessResponse req.id result], control := .cont }
  | .dispatched req _ (.rpcErr e) =>
      { enqueued := [newRPCErrorResponse req.id e.code e.message e.data], control := .cont }
  | .dispatched req _ (.otherError msg (some _)) =>
      { enqueued := [rpcInvalidRequestError req.id msg], control := .cont }
  | .dispatched req _ (.otherError msg none) =>
      { enqueued := [rpcInternalError req.id msg], control := .cont }
  | .dispatched _ _ (.panics err) =>
      { enqueued := [rpcInternalError (some (JSONRPCID.intID (-1))) err],
        control := .restartTask }

/-- One full `readRoutine` iteration: branch selection followed by effects. -/
def readRoutineStep (funcMap : FuncMap) (msg : InboundMessage) : StepEffects :=
  actionEffects (readStep funcMap msg)

/-- The inbound side run over a sequence of inbound events: responses are
enqueued in iteration order; `cont` and `restartTask` keep consuming events
(the restarted routine is a fresh task reading the same socket), while
`ret` and `stopQuit` end inbound processing. -/
def runReadLoop (funcMap : FuncMap) : List InboundMessage → List RPCResponse
  | [] => []
  | msg :: rest =>
    let eff := readRoutineStep funcMap msg
    match eff.control with
    | .cont => eff.enqueued ++ runReadLoop funcMap rest
    | .restartTask => eff.enqueued ++ runReadLoop funcMap rest
    | .ret => eff.enqueued
    | .stopQuit => eff.enqueued

/-- Result of a (possibly blocking) channel send under a context, as in
`WriteRPCResponse` (ws_handler.go:262-269): the response was sent, the
context's cancellation fired and `ctx.Err()` is returned, or neither select
case is ready and the call blocks. -/
inductive WriteResult
  | sent
  | cancelErr
  | blocked
  deriving DecidableEq, Repr

/-- Possible results of `WriteRPCResponse(ctx, resp)` (ws_handler.go:262-269),
a two-case Go `select` on `<-ctx.Done()` and `wsc.writeChan <- resp`.
`chanNil` is whether `writeChan` is still nil (it is created only in
`Start`; a send on a nil channel is never ready), `ctxDone` whether the
supplied context's Done channel has fired, `queueFull` whether the buffered
channel is at capacity with no receiver waiting.  A Go select with several
ready cases picks uniformly among them, so the result is the list of
possible outcomes; with no ready case the select blocks. -/
def writeRPCResponseOutcomes (chanNil ctxDone queueFull : Bool) : List WriteResult :=
  let cancelReady := ctxDone
  let sendReady := !chanNil && !queueFull
  if cancelReady || sendReady then
    (if cancelReady then [WriteResult.cancelErr] else [])
      ++ (if sendReady then [WriteResult.sent] else [])
  else
    [WriteResult.blocked]

/-- Possible return values of `TryWriteRPCResponse(ctx, resp)`
(ws_handler.go:274-283), the same select with an added `default` case, so
it never blocks: `false` on the context case or the default case, `true`
when the send case is chosen (the response is then enqueued). -/
def tryWriteRPCResponseOutcomes (chanNil ctxDone queueFull : Bool) : List Bool :=
  let cancelReady := ctxDone
  let sendReady := !chanNil && !queueFull
  if cancelReady || sendReady then
    (if cancelReady then [false] else []) ++ (if sendReady then [true] else [])
  else
    [false]

/-- The Done state of `context.Background()`: its Done channel never fires. -/
def backgroundCtxDone : Bool := false

/-- Possible results of the blocking enqueue performed by `readRoutine` for
every response it produces (ws_handler.go:298 together with 307, 346, 366,
377 and 416): it calls `WriteRPCResponse(writeCtx, resp)` with
`writeCtx := context.Background()`, so the select's cancellation case is
governed by the background context — not by the connection's cancellation
token, whose state (`connTokenFired`) does not enter the select at all.
`readRoutine` runs only after `Start` created `writeChan`, so the channel
is not nil. -/
def readRoutineEnqueueOutcomes (connTokenFired queueFull : Bool) : List WriteResult :=
  let _ := connTokenFired
  writeRPCResponseOutcomes false backgroundCtxDone queueFull

/-- One outbound event seen by an iteration of `writeRoutine`
(ws_handler.go:439-467): context done, `readRoutineQuit` closed, a relayed
pong (with whether the socket write succeeds), a ping-ticker tick (again
with the write's fate), or a queued response (with whether JSON marshalling
and the socket write succeed). -/
inductive WriteEvent
  | ctxDone
  | readQuit
  | pongRelay (m : String) (writeOk : Bool)
  | pingTick (writeOk : Bool)
  | responseMsg (resp : RPCResponse) (marshalOk : Bool) (writeOk : Bool)
  deriving Repr

/-- Whether the write multiplexer loop continues or terminates. -/
inductive WriteLoopControl
  | wcont
  | wret
  deriving DecidableEq, Repr

/-- One `writeRoutine` iteration (ws_handler.go:439-467): context done or
reader quit terminate the loop; a failed pong write is logged but the loop
continues (ws_handler.go:445-449); a failed ping write terminates the loop
(ws_handler.go:450-455); a response that fails to marshal is dropped and
the loop continues, while a failed response write terminates the loop
(ws_handler.go:456-465). -/
def writeRoutineStep : WriteEvent → WriteLoopControl
  | .ctxDone => .wret
  | .readQuit => .wret
  | .pongRelay _ _ => .wcont
  | .pingTick writeOk => if writeOk then .wcont else .wret
  | .responseMsg _ marshalOk writeOk =>
    if !marshalOk then .wcont
    else if writeOk then .wcont else .wret

/-- Lifecycle states of the run-state guard. -/
inductive RunFlag
  | notStarted
  | running
  | stopped
  deriving DecidableEq, Repr

/-- Modelled from the spec: `client.RunState.Start` (§4.1) — the `rpc/client`
package is not among the sources in scope.  "fails with AlreadyStarted if
not in Not-Started state; otherwise transitions to Running". -/
def runStateStart : RunFlag → RunFlag × Option String
  | .notStarted => (.running, none)
  | s => (s, some "already started")

/-- Modelled from the spec: `client.RunState.Stop` (§4.1) — "fails with
NotRunning if not Running; otherwise transitions to Stopped, always
succeeds idempotently on repeat calls (returns a recorded 'already stopped'
result, not an error storm)". -/
def runStateStop : RunFlag → RunFlag × Option String
  | .running => (.stopped, none)
  | s => (s, some "already stopped")

/-- Connection state relevant to lifecycle and the outbound queue
(ws_handler.go:110-144): the run-state guard, the remote address, whether an
`onDisconnect` callback was configured (the `OnDisconnect` option,
ws_handler.go:178-182), the addresses the callback has been invoked with,
whether `writeChan` has been created (it is nil until `Start`,
ws_handler.go:229), and the lazily created cancellation context
(`wsc.ctx` / `wsc.cancel`, ws_handler.go:287-293). -/
structure WSConnState where
  runFlag : RunFlag
  remoteAddr : String
  hasOnDisconnect : Bool
  disconnectCalledWith : List String
  writeChanMade : Bool
  ctxCreated : Bool
  ctxCancelled : Bool
  deriving DecidableEq, Repr

/-- `newWSConnection` (ws_handler.go:152-174): not started, callback as
configured by the options, never invoked, `writeChan` nil, no lazily
created context yet. -/
def newWSConnection (remoteAddr : String) (hasOnDisconnect : Bool) : WSConnState :=
  { runFlag := .notStarted
    remoteAddr := remoteAddr
    hasOnDisconnect := hasOnDisconnect
    disconnectCalledWith := []
    writeChanMade := false
    ctxCreated := false
    ctxCancelled := false }

/-- `wsConnection.Start` (ws_handler.go:225-237): delegate to the run-state
guard; on success create `writeChan` (and launch the two routines, which
are modelled separately). -/
def wsStart (c : WSConnState) : WSConnState × Option String :=
  match runStateStart c.runFlag with
  | (rf, some e) => ({ c with runFlag := rf }, some e)
  | (rf, none) => ({ c with runFlag := rf, writeChanMade := true }, none)

/-- `wsConnection.Stop` (ws_handler.go:240-251): delegate to the run-state
guard and return early on its error; otherwise invoke `onDisconnect` with
the remote address when configured, and cancel the lazily created context
when it exists (`if wsc.ctx != nil`). -/
def wsStop (c : WSConnState) : WSConnState × Option String :=
  match runStateStop c.runFlag with
  | (rf, some e) => ({ c with runFlag := rf }, some e)
  | (rf, none) =>
    let c := { c with runFlag := rf }
    let c := if c.hasOnDisconnect
      then { c with disconnectCalledWith := c.disconnectCalledWith ++ [c.remoteAddr] }
      else c
    let c := if c.ctxCreated then { c with ctxCancelled := true } else c
    (c, none)

/-! Concrete fixtures used by witnesses. -/

/-- A registered method whose handler panics on invocation. -/
def panickingFunc : RPCFunc :=
  { bind := fun _ => .ok [], call := fun _ => .panics "WSJSONRPC: boom" }

/-- A registered method whose handler succeeds; its binder always fails, so
any consultation of it would be visible. -/
def okFunc : RPCFunc :=
  { bind := fun _ => .error "binder consulted", call := fun _ => .success "ok" }

/-- A registry exposing `panickingFunc` under the name "faulty" and `okFunc`
under the name "echo". -/
def sampleFuncMap : FuncMap := fun name =>
  if name = "faulty" then some panickingFunc
  else if name = "echo" then some okFunc
  else none

/-- A request with an integer id, empty params, naming "faulty". -/
def faultyReq : RPCRequest := { id := some (.intID 7), method := "faulty", params := "" }

/-- A request with an integer id, empty params, naming "echo". -/
def echoReq : RPCRequest := { id := some (.intID 2), method := "echo", params := "" }

/-- A notification: no id. -/
def notificationReq : RPCRequest := { id := none, method := "echo", params := "{}" }

/-- A request naming a method absent from `sampleFuncMap`. -/
def unknownReq : RPCRequest := { id := some (.stringID "abc"), method := "nope", params := "" }

/-- A running connection with a configured disconnect callback and a created
cancellation context. -/
def runningConn : WSConnState :=
  { runFlag := .running
    remoteAddr := "127.0.0.1:4444"
    hasOnDisconnect := true
    disconnectCalledWith := []
    writeChanMade := true
    ctxCreated := true
    ctxCancelled := false }

/-! Claim theorems. -/

/-- C1: if invoking a resolved method handler panics, the inbound loop
catches it at the call boundary, produces exactly one InternalError
response (code -32603) carrying the fixed sentinel id -1 rather than the
originating request's id, attempts to enqueue that response, and restarts
the inbound loop as a fresh concurrent task, so subsequent inbound events
continue to be served. -/
theorem panic_recovery_restarts_loop (funcMap : FuncMap) (msg : InboundMessage)
    (rest : List InboundMessage) (req : RPCRequest) (args : List HandlerArg) (err : String)
    (h : readStep funcMap msg = .dispatched req args (.panics err)) :
    readRoutineStep funcMap msg
      = { enqueued := [rpcInternalError (some (JSONRPCID.intID (-1))) err],
          control := .restartTask }
    ∧ (rpcInternalError (some (JSONRPCID.intID (-1))) err).error.map RPCError.code
      = some (-32603)
    ∧ (rpcInternalError (some (JSONRPCID.intID (-1))) err).id
      = some (JSONRPCID.intID (-1))
    ∧ runReadLoop funcMap (msg :: rest)
      = rpcInternalError (some (JSONRPCID.intID (-1))) err :: runReadLoop funcMap rest := by
  refine ⟨?_, rfl, rfl, ?_⟩
  · rw [readRoutineStep, h]
    rfl
  · rw [runReadLoop, readRoutineStep, h]
    rfl

/-- C1 witness at a concrete panicking handler. -/
theorem panic_recovery_restarts_loop_witness :
    readStep sampleFuncMap (.frame (.ok faultyReq))
      = .dispatched faultyReq [HandlerArg.ctxArg faultyReq] (.panics "WSJSONRPC: boom")
    ∧ (readRoutineStep sampleFuncMap (.frame (.ok faultyReq))
        = { enqueued := [rpcInternalError (some (JSONRPCID.intID (-1))) "WSJSONRPC: boom"],
            control := .restartTask }
      ∧ (rpcInternalError (some (JSONRPCID.intID (-1))) "WSJSONRPC: boom").error.map
          RPCError.code = some (-32603)
      ∧ (rpcInternalError (some (JSONRPCID.intID (-1))) "WSJSONRPC: boom").id
        = some (JSONRPCID.intID (-1))
      ∧ runReadLoop sampleFuncMap (.frame (.ok faultyReq) :: [])
        = rpcInternalError (some (JSONRPCID.intID (-1))) "WSJSONRPC: boom"
          :: runReadLoop sampleFuncMap []) :=
  ⟨rfl, panic_recovery_restarts_loop sampleFuncMap _ [] faultyReq _ _ rfl⟩

/-- C2: a decoded request without an id (a notification) makes the inbound
loop continue without enqueuing anything, and contributes no response to
the whole run of the loop. -/
theorem notification_never_answered (funcMap : FuncMap) (req : RPCRequest)
    (rest : List InboundMessage) (h : req.id = none) :
    readRoutineStep funcMap (.frame (.ok req)) = { enqueued := [], control := .cont }
    ∧ runReadLoop funcMap (.frame (.ok req) :: rest) = runReadLoop funcMap rest := by
  have hstep : readRoutineStep funcMap (.frame (.ok req))
      = { enqueued := [], control := .cont } := by
    rw [readRoutineStep, readStep]
    rw [h]
    rfl
  refine ⟨hstep, ?_⟩
  rw [runReadLoop, hstep]
  rfl

/-- C2 witness at a concrete notification. -/
theorem notification_never_answered_witness :
    notificationReq.id = none
    ∧ (readRoutineStep sampleFuncMap (.frame (.ok notificationReq))
        = { enqueued := [], control := .cont }
      ∧ runReadLoop sampleFuncMap (.frame (.ok notificationReq) :: [.frame (.ok echoReq)])
        = runReadLoop sampleFuncMap [.frame (.ok echoReq)]) :=
  ⟨rfl, notification_never_answered sampleFuncMap notificationReq [.frame (.ok echoReq)] rfl⟩

/-- C3 counterexample: with the connection's cancellation token fired and
the outbound queue full, the inbound loop's blocking enqueue does not abort
with a cancellation result — it stays blocked, because `readRoutine`
performs the enqueue under `context.Background()` (ws_handler.go:298), not
under the connection's token. -/
theorem inbound_enqueue_ignores_conn_token :
    readRoutineEnqueueOutcomes true true = [WriteResult.blocked]
    ∧ WriteResult.cancelErr ∉ readRoutineEnqueueOutcomes true true := by decide

/-- C3 amended: the inbound loop enqueues each dispatched response with a
blocking enqueue governed by the background context it passes as writeCtx,
which never fires — not by the connection's cancellation token: whatever
the token's state, the enqueue blocks while the queue is full, succeeds
once there is room, and never aborts with a cancellation result. -/
theorem inbound_enqueue_background_ctx (connTokenFired queueFull : Bool) :
    readRoutineEnqueueOutcomes connTokenFired queueFull
      = (if queueFull then [WriteResult.blocked] else [WriteResult.sent])
    ∧ WriteResult.cancelErr ∉ readRoutineEnqueueOutcomes connTokenFired queueFull := by
  cases connTokenFired <;> cases queueFull <;> decide

/-- C4: in the write multiplexer loop, a failed pong write is logged but
the loop continues, whereas a failed ping write terminates the loop. -/
theorem pong_failure_continues_ping_failure_terminates (m : String) :
    writeRoutineStep (.pongRelay m false) = .wcont
    ∧ writeRoutineStep (.pingTick false) = .wret :=
  ⟨rfl, rfl⟩

/-- C5: the error-taxonomy switch on the handler outcome — no error yields a
success response with the result payload and the request's id; a structured
RPC error is forwarded verbatim (same code, message, data, request's id);
an error unwrapping to one of the fixed bad-request sentinels yields
InvalidRequest with code -32600; any other error yields InternalError with
code -32603. -/
theorem taxonomy_maps_outcomes (req : RPCRequest) (args : List HandlerArg)
    (result : String) (e : RPCError) (msg : String) (s : BadRequestSentinel) :
    actionEffects (.dispatched req args (.success result))
      = { enqueued := [{ id := req.id, result := some result, error := none }],
          control := .cont }
    ∧ actionEffects (.dispatched req args (.rpcErr e))
      = { enqueued := [{ id := req.id, result := none, error := some e }],
          control := .cont }
    ∧ actionEffects (.dispatched req args (.otherError msg (some s)))
      = { enqueued := [rpcInvalidRequestError req.id msg], control := .cont }
    ∧ (rpcInvalidRequestError req.id msg).error.map RPCError.code = some (-32600)
    ∧ actionEffects (.dispatched req args (.otherError msg none))
      = { enqueued := [rpcInternalError req.id msg], control := .cont }
    ∧ (rpcInternalError req.id msg).error.map RPCError.code = some (-32603) :=
  ⟨rfl, rfl, rfl, rfl, rfl, rfl⟩

/-- C6: Stop on a running connection transitions it to Stopped, invokes the
configured onDisconnect callback with the remote address, and cancels the
connection's (created) token; a second Stop leaves the state unchanged and
returns the recorded already-stopped result, so the disconnect callback is
invoked only once per connection. -/
theorem stop_idempotent_single_disconnect (c : WSConnState)
    (hrun : c.runFlag = .running) (hcb : c.hasOnDisconnect = true)
    (hctx : c.ctxCreated = true) :
    (wsStop c).1.runFlag = .stopped
    ∧ (wsStop c).2 = none
    ∧ (wsStop c).1.disconnectCalledWith = c.disconnectCalledWith ++ [c.remoteAddr]
    ∧ (wsStop c).1.ctxCancelled = true
    ∧ wsStop ((wsStop c).1) = ((wsStop c).1, some "already stopped") := by
  simp [wsStop, runStateStop, hrun, hcb, hctx]

/-- C6 witness at a concrete running connection. -/
theorem stop_idempotent_single_disconnect_witness :
    (runningConn.runFlag = .running ∧ runningConn.hasOnDisconnect = true
      ∧ runningConn.ctxCreated = true)
    ∧ ((wsStop runningConn).1.runFlag = .stopped
      ∧ (wsStop runningConn).2 = none
      ∧ (wsStop runningConn).1.disconnectCalledWith
        = runningConn.disconnectCalledWith ++ [runningConn.remoteAddr]
      ∧ (wsStop runningConn).1.ctxCancelled = true
      ∧ wsStop ((wsStop runningConn).1)
        = ((wsStop runningConn).1, some "already stopped")) :=
  ⟨⟨rfl, rfl, rfl⟩, stop_idempotent_single_disconnect runningConn rfl rfl rfl⟩

/-- C7: a request carrying an id whose method is not in the registry makes
the inbound loop enqueue a MethodNotFound response with code -32601 and the
original request's id, and continue the loop. -/
theorem unknown_method_yields_method_not_found (funcMap : FuncMap) (req : RPCRequest)
    (i : JSONRPCID) (hid : req.id = some i) (hm : funcMap req.method = none) :
    readRoutineStep funcMap (.frame (.ok req))
      = { enqueued := [rpcMethodNotFoundError req.id], control := .cont }
    ∧ (rpcMethodNotFoundError req.id).error.map RPCError.code = some (-32601)
    ∧ (rpcMethodNotFoundError req.id).id = req.id := by
  refine ⟨?_, rfl, rfl⟩
  simp [readRoutineStep, readStep, hid, hm, actionEffects]

/-- C7 witness at a concrete unregistered method. -/
theorem unknown_method_yields_method_not_found_witness :
    (unknownReq.id = some (JSONRPCID.stringID "abc") ∧ sampleFuncMap unknownReq.method = none)
    ∧ (readRoutineStep sampleFuncMap (.frame (.ok unknownReq))
        = { enqueued := [rpcMethodNotFoundError unknownReq.id], control := .cont }
      ∧ (rpcMethodNotFoundError unknownReq.id).error.map RPCError.code = some (-32601)
      ∧ (rpcMethodNotFoundError unknownReq.id).id = unknownReq.id) :=
  ⟨⟨rfl, rfl⟩,
    unknown_method_yields_method_not_found sampleFuncMap unknownReq _ rfl rfl⟩

/-- C8 counterexample: with the supplied context already cancelled but the
queue not at capacity, the select of TryWriteRPCResponse has two ready
cases and may pick the send, enqueueing and returning true — so "when the
supplied context is already cancelled it returns false immediately" fails. -/
theorem try_write_cancelled_may_return_true :
    tryWriteRPCResponseOutcomes false true false = [false, true]
    ∧ true ∈ tryWriteRPCResponseOutcomes false true false := by decide

/-- C8 amended: TryWriteRPCResponse never blocks; it returns false whenever
the queue is at capacity; with room in the queue and an uncancelled context
it enqueues and returns true; with room but an already cancelled context
either ready select case may win, so it returns false or enqueues and
returns true.  WriteRPCResponse blocks exactly while the queue is at
capacity and the context has not fired, can succeed exactly when the queue
has room, and returns the cancellation error exactly when the supplied
context is cancelled. -/
theorem write_and_try_write_semantics (ctxDone queueFull : Bool) :
    tryWriteRPCResponseOutcomes false ctxDone true = [false]
    ∧ tryWriteRPCResponseOutcomes false false false = [true]
    ∧ tryWriteRPCResponseOutcomes false true false = [false, true]
    ∧ tryWriteRPCResponseOutcomes false ctxDone queueFull ≠ []
    ∧ (WriteResult.blocked ∈ writeRPCResponseOutcomes false ctxDone queueFull
        ↔ (ctxDone = false ∧ queueFull = true))
    ∧ (WriteResult.sent ∈ writeRPCResponseOutcomes false ctxDone queueFull
        ↔ queueFull = false)
    ∧ (WriteResult.cancelErr ∈ writeRPCResponseOutcomes false ctxDone queueFull
        ↔ ctxDone = true) := by
  cases ctxDone <;> cases queueFull <;> decide

/-- C9: a freshly constructed connection has no outbound queue (the write
channel is nil; it is created only inside Start): TryWriteRPCResponse on it
always returns false, and WriteRPCResponse on it can never send — it
blocks until the supplied context is cancelled and then reports
cancellation. -/
theorem not_started_connection_write_fails (addr : String) (hasCb : Bool)
    (ctxDone queueFull : Bool) :
    (newWSConnection addr hasCb).writeChanMade = false
    ∧ (wsStart (newWSConnection addr hasCb)).1.writeChanMade = true
    ∧ tryWriteRPCResponseOutcomes (!(newWSConnection addr hasCb).writeChanMade)
        ctxDone queueFull = [false]
    ∧ WriteResult.sent ∉ writeRPCResponseOutcomes
        (!(newWSConnection addr hasCb).writeChanMade) ctxDone queueFull
    ∧ writeRPCResponseOutcomes (!(newWSConnection addr hasCb).writeChanMade)
        ctxDone queueFull
      = (if ctxDone then [WriteResult.cancelErr] else [WriteResult.blocked]) := by
  have hw : (newWSConnection addr hasCb).writeChanMade = false := rfl
  refine ⟨hw, rfl, ?_, ?_, ?_⟩ <;> rw [hw] <;> cases ctxDone <;> cases queueFull <;> decide

/-- C10: parameter binding is attempted only for non-empty params — for a
request with an id and a registered method but empty params, the step's
result does not consult the binder at all and the handler is invoked with
only the request-context argument; and the binding-failure branch (the only
source of an InvalidParams response) can only ever be taken for a request
with non-empty params. -/
theorem empty_params_skip_binding (funcMap : FuncMap) (req : RPCRequest)
    (f : RPCFunc) (i : JSONRPCID)
    (hid : req.id = some i) (hf : funcMap req.method = some f)
    (hp : req.params.length = 0) :
    readStep funcMap (.frame (.ok req))
      = .dispatched req [HandlerArg.ctxArg req] (f.call [HandlerArg.ctxArg req])
    ∧ ∀ (fm : FuncMap) (msg : InboundMessage) (req' : RPCRequest) (e : String),
        readStep fm msg = .bindFailure req' e → req'.params.length > 0 := by
  constructor
  · rw [readStep]
    rw [hid, hf]
    simp [hp]
  · intro fm msg req' e h
    unfold readStep at h
    repeat' split at h
    all_goals cases h
    all_goals assumption

/-- C10 witness at a concrete empty-params request. -/
theorem empty_params_skip_binding_witness :
    (echoReq.id = some (JSONRPCID.intID 2) ∧ sampleFuncMap echoReq.method = some okFunc
      ∧ echoReq.params.length = 0)
    ∧ (readStep sampleFuncMap (.frame (.ok echoReq))
        = .dispatched echoReq [HandlerArg.ctxArg echoReq]
            (okFunc.call [HandlerArg.ctxArg echoReq])
      ∧ ∀ (fm : FuncMap) (msg : InboundMessage) (req' : RPCRequest) (e : String),
          readStep fm msg = .bindFailure req' e → req'.params.length > 0) :=
  ⟨⟨rfl, rfl, rfl⟩, empty_params_skip_binding sampleFuncMap echoReq okFunc _ rfl rfl rfl⟩

end WsHandler
